import Mathlib

/-!
Verification of the football data-collection pipeline
(`src/data_collection/data_collector.py`) via a shallow embedding.

The embedding mirrors the `DataCollector` class: URL construction,
the per-year fetch loop with its failure tolerance, the merge/derive
step (`_process_data`), and the `compute_team_statistics` aggregation.
Pandas float division is modelled by `PFloat` (rational value, NaN or
infinity), and the remote archive by an oracle mapping each year to a
fetch outcome.
-/

set_option maxHeartbeats 1000000

namespace FootballPredictions

/-- One parsed CSV match row, with the date already split into
calendar components (pandas `to_datetime` with `dayfirst=True`). -/
structure MatchRow where
  dateYear : Int
  dateMonth : Nat
  dateDay : Nat
  homeTeam : String
  awayTeam : String
  fthg : Nat
  ftag : Nat
  ftr : String
deriving DecidableEq, Repr

/-- Result of a pandas float division: a finite value, NaN, or +inf.
`0 / 0` is NaN and `x / 0` with `x > 0` is +inf; pandas raises no
exception on division by zero. -/
inductive PFloat where
  | val (q : ℚ)
  | nan
  | inf
deriving DecidableEq, Repr

/-- Pandas-style division of nonnegative rationals. -/
def pdiv (n d : ℚ) : PFloat :=
  if d = 0 then (if n = 0 then .nan else .inf) else .val (n / d)

/-- Rows of `df` whose `HomeTeam` equals `t` (the `groupby('HomeTeam')`
group for key `t`; empty when `t` is not a home team). -/
def homeRows (df : List MatchRow) (t : String) : List MatchRow :=
  df.filter (fun r => r.homeTeam = t)

/-- Rows of `df` whose `AwayTeam` equals `t`. -/
def awayRows (df : List MatchRow) (t : String) : List MatchRow :=
  df.filter (fun r => r.awayTeam = t)

/-- `HomeGames=('HomeTeam', 'count')`. -/
def homeGames (df : List MatchRow) (t : String) : Nat := (homeRows df t).length

/-- `HomeWins=('FTR', lambda x: (x == 'H').sum())`. -/
def homeWins (df : List MatchRow) (t : String) : Nat :=
  ((homeRows df t).filter (fun r => r.ftr = "H")).length

/-- `HomeDraws=('FTR', lambda x: (x == 'D').sum())`. -/
def homeDraws (df : List MatchRow) (t : String) : Nat :=
  ((homeRows df t).filter (fun r => r.ftr = "D")).length

/-- `HomeGoals=('FTHG', 'sum')`. -/
def homeGoals (df : List MatchRow) (t : String) : Nat :=
  ((homeRows df t).map (fun r => r.fthg)).sum

/-- `AwayGames=('AwayTeam', 'count')`. -/
def awayGames (df : List MatchRow) (t : String) : Nat := (awayRows df t).length

/-- `AwayWins=('FTR', lambda x: (x == 'A').sum())`. -/
def awayWins (df : List MatchRow) (t : String) : Nat :=
  ((awayRows df t).filter (fun r => r.ftr = "A")).length

/-- `AwayDraws=('FTR', lambda x: (x == 'D').sum())`. -/
def awayDraws (df : List MatchRow) (t : String) : Nat :=
  ((awayRows df t).filter (fun r => r.ftr = "D")).length

/-- `AwayGoals=('FTAG', 'sum')`. -/
def awayGoals (df : List MatchRow) (t : String) : Nat :=
  ((awayRows df t).map (fun r => r.ftag)).sum

/-- One row of the `compute_team_statistics` result: home and away
counts (the outer merge fills a missing side with 0), totals, and the
seven pandas-division ratios. -/
structure TeamStats where
  team : String
  homeGamesN : Nat
  homeWinsN : Nat
  homeDrawsN : Nat
  homeGoalsN : Nat
  awayGamesN : Nat
  awayWinsN : Nat
  awayDrawsN : Nat
  awayGoalsN : Nat
  totalGames : Nat
  totalWins : Nat
  totalDraws : Nat
  totalGoals : Nat
  winRatio : PFloat
  drawRatio : PFloat
  homeWinRatio : PFloat
  awayWinRatio : PFloat
  homeGoalRatio : PFloat
  awayGoalRatio : PFloat
  totalGoalRatio : PFloat
deriving DecidableEq, Repr

/-- The statistics row for team `t` over table `df`: group-by counts
(zero-filled by `.fillna(0)` when `t` is absent from one side), the
total columns, and the ratio columns of `compute_team_statistics`. -/
def teamStatsFor (df : List MatchRow) (t : String) : TeamStats :=
  let hg := homeGames df t
  let hw := homeWins df t
  let hd := homeDraws df t
  let hgl := homeGoals df t
  let ag := awayGames df t
  let aw := awayWins df t
  let ad := awayDraws df t
  let agl := awayGoals df t
  { team := t
    homeGamesN := hg, homeWinsN := hw, homeDrawsN := hd, homeGoalsN := hgl
    awayGamesN := ag, awayWinsN := aw, awayDrawsN := ad, awayGoalsN := agl
    totalGames := hg + ag
    totalWins := hw + aw
    totalDraws := hd + ad
    totalGoals := hgl + agl
    winRatio := pdiv (hw + aw : ℚ) (hg + ag : ℚ)
    drawRatio := pdiv (hd + ad : ℚ) (hg + ag : ℚ)
    homeWinRatio := pdiv (hw : ℚ) (hg : ℚ)
    awayWinRatio := pdiv (aw : ℚ) (ag : ℚ)
    homeGoalRatio := pdiv (hgl : ℚ) (hg : ℚ)
    awayGoalRatio := pdiv (agl : ℚ) (ag : ℚ)
    totalGoalRatio := pdiv (hgl + agl : ℚ) (hg + ag : ℚ) }

/-- Index of the outer merge of the two group-bys: every distinct name
appearing as a home team or an away team, each exactly once. -/
def teamIndex (df : List MatchRow) : List String :=
  (df.map (fun r => r.homeTeam) ++ df.map (fun r => r.awayTeam)).dedup

/-- `DataCollector.compute_team_statistics`: one statistics row per
distinct team of the outer-merged index. -/
def compute_team_statistics (df : List MatchRow) : List TeamStats :=
  (teamIndex df).map (teamStatsFor df)

/-- Python `str(n)[-2:]`: the last two characters of a string (the
whole string when it is shorter than two characters). -/
def lastTwo (s : String) : String :=
  String.mk (s.data.drop (s.data.length - 2))

/-- `DataCollector._construct_url`: the season URL for a valid league,
or the `ValueError` message raised for any other league value. -/
def construct_url (league : String) (year : Int) : Except String String :=
  if league = "serie_a" then
    .ok ("https://www.football-data.co.uk/mmz4281/" ++ lastTwo (toString year)
      ++ lastTwo (toString (year + 1)) ++ "/I1.csv")
  else if league = "epl" then
    .ok ("https://www.football-data.co.uk/mmz4281/" ++ lastTwo (toString year)
      ++ lastTwo (toString (year + 1)) ++ "/E0.csv")
  else
    .error "Invalid league. Must be 'serie_a' or 'epl'."

/-- Outcome of one season's `requests.get` plus CSV parse: a parsed
table on status 200, a non-200 status, or a raised `RequestException`.
Rows that failed to parse (`on_bad_lines="skip"`) are already absent
from the `ok` table. -/
inductive FetchOutcome where
  | ok (table : List MatchRow)
  | notFound
  | requestError
deriving Repr

/-- Python `range(year_start, year_end + 1)` over integers. -/
def rangeList (yearStart yearEnd : Int) : List Int :=
  (List.range (yearEnd + 1 - yearStart).toNat).map (fun i : Nat => yearStart + Int.ofNat i)

/-- The fetch loop of `collect_data`: for each year, construct the URL
(propagating the `ValueError` of an invalid league), consult the remote
oracle, and append a successfully parsed table to the accumulation
`self.all_data`; non-200 and transport failures only print and skip. -/
def fetchYears (league : String) (oracle : Int → FetchOutcome) :
    List Int → List (List MatchRow) → Except String (List (List MatchRow))
  | [], acc => .ok acc
  | y :: ys, acc =>
    match construct_url league y with
    | .error e => .error e
    | .ok _ =>
      match oracle y with
      | .ok df => fetchYears league oracle ys (acc ++ [df])
      | .notFound => fetchYears league oracle ys acc
      | .requestError => fetchYears league oracle ys acc

/-- The static `cities` reference of `assets/cities` (not under `src/`).
Modelled from the spec: a keyed mapping from home-team display name to
a record `\x7bname, lat, lon\x7d`, consulted read-only; the concrete keys and
values are opaque, so the mapping is a parameter (an association list
with the record as value). -/
abbrev CityMap := List (String × (String × ℚ × ℚ))

/-- One row of the merged table after `_process_data`'s `assign`:
the original match fields plus the derived columns. -/
structure ProcRow where
  div : String
  dateYear : Int
  dateMonth : Nat
  dateDay : Nat
  season : String
  game_id : String
  homeTeam : String
  awayTeam : String
  fthg : Nat
  ftag : Nat
  ftr : String
  tg : Nat
  city_name : Option String
  lat : Option ℚ
  lon : Option ℚ
deriving DecidableEq, Repr

/-- The season label of `_process_data`:
`f"\x7bdate.year\x7d/\x7bstr(date.year + 1)\x7d"` when the month is at least 8,
else `f"\x7bdate.year - 1\x7d/\x7bdate.year\x7d"`. -/
def seasonLabel (year : Int) (month : Nat) : String :=
  if month ≥ 8 then toString year ++ "/" ++ toString (year + 1)
  else toString (year - 1) ++ "/" ++ toString year

/-- The per-row part of `_process_data`'s `assign`: constant `Div`,
season label from the parsed date, a fresh `game_id`, `TG = FTHG + FTAG`,
and the three city lookups keyed on `HomeTeam` (`None` when the home
team is not a key of `cities`). -/
def processRow (league : String) (cities : CityMap) (gid : String)
    (r : MatchRow) : ProcRow :=
  { div := league
    dateYear := r.dateYear
    dateMonth := r.dateMonth
    dateDay := r.dateDay
    season := seasonLabel r.dateYear r.dateMonth
    game_id := gid
    homeTeam := r.homeTeam
    awayTeam := r.awayTeam
    fthg := r.fthg
    ftag := r.ftag
    ftr := r.ftr
    tg := r.fthg + r.ftag
    city_name := (cities.lookup r.homeTeam).map (fun v => v.1)
    lat := (cities.lookup r.homeTeam).map (fun v => v.2.1)
    lon := (cities.lookup r.homeTeam).map (fun v => v.2.2) }

/-- Row-wise derivation over the concatenated table: row `i` receives
`game_id = gen i`, mirroring `[uuid.uuid4().hex[:8] for _ in range(len(all_data_df))]`. -/
def deriveRows (league : String) (cities : CityMap) (gen : Nat → String) :
    Nat → List MatchRow → List ProcRow
  | _, [] => []
  | i, r :: rs => processRow league cities (gen i) r :: deriveRows league cities gen (i + 1) rs

/-- `DataCollector._process_data` on the accumulated tables: `pd.concat`
raises `ValueError` on an empty list; otherwise the rows are concatenated
in order and derived. -/
def process_data (league : String) (cities : CityMap) (gen : Nat → String)
    (all_data : List (List MatchRow)) : Except String (List ProcRow) :=
  if all_data = [] then .error "No objects to concatenate"
  else .ok (deriveRows league cities gen 0 all_data.flatten)

/-- `DataCollector.collect_data` acting on an explicit accumulation
state (`self.all_data` before the call): run the fetch loop over the
year range, then `_process_data`; returns the new accumulation together
with the merged table, or the raised error. -/
def collect_data (league : String) (cities : CityMap) (gen : Nat → String)
    (oracle : Int → FetchOutcome) (yearStart yearEnd : Int)
    (all_data : List (List MatchRow)) :
    Except String (List (List MatchRow) × List ProcRow) :=
  match fetchYears league oracle (rangeList yearStart yearEnd) all_data with
  | .error e => .error e
  | .ok acc =>
    match process_data league cities gen acc with
    | .error e => .error e
    | .ok t => .ok (acc, t)

/-- The column-reorder expression of `_process_data`, acting on the
post-derivation column list:
`["game_id"] + [c for c in cols if c not in ["game_id","TG"]][:3]
 + ["TG"] + [c for c in cols if c not in ["game_id","TG","TG"]][3:]`. -/
def reorderCols (cols : List String) : List String :=
  ["game_id"]
  ++ (cols.filter (fun c => ¬ (c = "game_id" ∨ c = "TG"))).take 3
  ++ ["TG"]
  ++ (cols.filter (fun c => ¬ (c = "game_id" ∨ c = "TG" ∨ c = "TG"))).drop 3

/-! ### Helper lemmas -/

lemma mem_deriveRows {league : String} {cities : CityMap} {gen : Nat → String}
    {i : Nat} {rows : List MatchRow} {p : ProcRow}
    (h : p ∈ deriveRows league cities gen i rows) :
    ∃ j r, r ∈ rows ∧ p = processRow league cities (gen j) r := by
  induction rows generalizing i with
  | nil => simp [deriveRows] at h
  | cons r rs ih =>
    simp only [deriveRows, List.mem_cons] at h
    rcases h with h | h
    · exact ⟨i, r, List.mem_cons_self r rs, h⟩
    · obtain ⟨j, r', hr', hp⟩ := ih h
      exact ⟨j, r', List.mem_cons_of_mem r hr', hp⟩

/-- Sample match row used to instantiate the universally quantified
theorems at a concrete input. -/
def wRow : MatchRow :=
  { dateYear := 2021, dateMonth := 3, dateDay := 14
    homeTeam := "Arsenal", awayTeam := "Chelsea"
    fthg := 2, ftag := 1, ftr := "H" }

/-- Sample city reference with `Arsenal` as its only key. -/
def wCities : CityMap := [("Arsenal", ("London", (515 : ℚ) / 10, (-1 : ℚ) / 10))]

/-- Deterministic stand-in for the per-row `uuid` generator. -/
def gen0 : Nat → String := fun n => toString n

/-! ### C5: column ordering -/

/-- C5: for every post-derivation column list, the reordered columns are
`game_id` first, then the first three columns that are neither `game_id`
nor `TG` in their original order, then `TG`, then all remaining such
columns in their original order — for every source column set. -/
theorem c5_column_order (cols : List String) :
    reorderCols cols
      = ["game_id"]
        ++ (cols.filter (fun c => c ≠ "game_id" ∧ c ≠ "TG")).take 3
        ++ ["TG"]
        ++ (cols.filter (fun c => c ≠ "game_id" ∧ c ≠ "TG")).drop 3
    ∧ (reorderCols cols).head? = some "game_id"
    ∧ (cols.filter (fun c => c ≠ "game_id" ∧ c ≠ "TG")).take 3
        ++ (cols.filter (fun c => c ≠ "game_id" ∧ c ≠ "TG")).drop 3
      = cols.filter (fun c => c ≠ "game_id" ∧ c ≠ "TG") := by
  have hpred : ∀ c : String,
      (decide ¬ (c = "game_id" ∨ c = "TG")) = decide (c ≠ "game_id" ∧ c ≠ "TG") := by
    intro c
    by_cases h1 : c = "game_id" <;> by_cases h2 : c = "TG" <;> simp [h1, h2]
  have hpred2 : ∀ c : String,
      (decide ¬ (c = "game_id" ∨ c = "TG" ∨ c = "TG"))
        = decide (c ≠ "game_id" ∧ c ≠ "TG") := by
    intro c
    by_cases h1 : c = "game_id" <;> by_cases h2 : c = "TG" <;> simp [h1, h2]
  refine ⟨?_, ?_, List.take_append_drop 3 _⟩
  · simp only [reorderCols]
    rw [show (fun c : String => decide ¬ (c = "game_id" ∨ c = "TG"))
          = (fun c : String => decide (c ≠ "game_id" ∧ c ≠ "TG")) from funext hpred,
        show (fun c : String => decide ¬ (c = "game_id" ∨ c = "TG" ∨ c = "TG"))
          = (fun c : String => decide (c ≠ "game_id" ∧ c ≠ "TG")) from funext hpred2]
  · simp [reorderCols]

/-! ### C6: season label -/

/-- C6: every row of a merged table returned by `_process_data` carries
the season label `"Y/Y+1"`, where `Y` is the match's calendar year when
the month is at least 8 (August) and the calendar year minus one when
the month is below 8. -/
theorem c6_season_label (league : String) (cities : CityMap) (gen : Nat → String)
    (all_data : List (List MatchRow)) (t : List ProcRow) (p : ProcRow)
    (hp : process_data league cities gen all_data = .ok t) (hmem : p ∈ t) :
    ∃ Y : Int, (8 ≤ p.dateMonth → Y = p.dateYear)
      ∧ (p.dateMonth < 8 → Y = p.dateYear - 1)
      ∧ p.season = toString Y ++ "/" ++ toString (Y + 1) := by
  unfold process_data at hp
  split at hp
  · exact absurd hp (by simp)
  · have ht : t = deriveRows league cities gen 0 all_data.flatten := by
      injection hp with h
      exact h.symm
    subst ht
    obtain ⟨j, r, _, hpr⟩ := mem_deriveRows hmem
    subst hpr
    have hdm : (processRow league cities (gen j) r).dateMonth = r.dateMonth := rfl
    have hdy : (processRow league cities (gen j) r).dateYear = r.dateYear := rfl
    rw [hdm, hdy]
    by_cases hm : 8 ≤ r.dateMonth
    · exact ⟨r.dateYear, fun _ => rfl, fun h => absurd hm (by omega),
        by simp [processRow, seasonLabel, hm]⟩
    · refine ⟨r.dateYear - 1, fun h => absurd h hm, fun _ => rfl, ?_⟩
      simp only [processRow, seasonLabel, ge_iff_le, if_neg hm]
      norm_num

/-- Witness for C6 at a concrete March 2021 row: the label is
`"2020/2021"`. -/
theorem c6_season_label_witness :
    ∃ Y : Int, (8 ≤ (processRow "epl" wCities "abc" wRow).dateMonth → Y = (processRow "epl" wCities "abc" wRow).dateYear)
      ∧ ((processRow "epl" wCities "abc" wRow).dateMonth < 8 → Y = (processRow "epl" wCities "abc" wRow).dateYear - 1)
      ∧ (processRow "epl" wCities "abc" wRow).season = toString Y ++ "/" ++ toString (Y + 1) :=
  c6_season_label "epl" wCities (fun _ => "abc") [[wRow]]
    (deriveRows "epl" wCities (fun _ => "abc") 0 [wRow])
    (processRow "epl" wCities "abc" wRow) rfl (List.mem_singleton.mpr rfl)

/-! ### C9: city lookup -/

/-- C9: for every row of a merged table, when the home team is a key of
the city reference the derived `city_name`, `lat`, `lon` are the mapped
values (non-missing); when it is not a key all three are missing, and
the derivation is total (no error is raised). -/
theorem c9_city_lookup (league : String) (cities : CityMap) (gen : Nat → String)
    (all_data : List (List MatchRow)) (t : List ProcRow) (p : ProcRow)
    (hp : process_data league cities gen all_data = .ok t) (hmem : p ∈ t) :
    (∀ v : String × ℚ × ℚ, cities.lookup p.homeTeam = some v →
        p.city_name = some v.1 ∧ p.lat = some v.2.1 ∧ p.lon = some v.2.2)
    ∧ (cities.lookup p.homeTeam = none →
        p.city_name = none ∧ p.lat = none ∧ p.lon = none) := by
  unfold process_data at hp
  split at hp
  · exact absurd hp (by simp)
  · have ht : t = deriveRows league cities gen 0 all_data.flatten := by
      injection hp with h
      exact h.symm
    subst ht
    obtain ⟨j, r, _, hpr⟩ := mem_deriveRows hmem
    subst hpr
    constructor
    · intro v hv
      have hteam : (processRow league cities (gen j) r).homeTeam = r.homeTeam := rfl
      rw [hteam] at hv
      simp [processRow, hv]
    · intro hv
      have hteam : (processRow league cities (gen j) r).homeTeam = r.homeTeam := rfl
      rw [hteam] at hv
      simp [processRow, hv]

/-- Witness for C9: with `Arsenal` mapped to London coordinates, the
derived fields are the mapped values. -/
theorem c9_city_lookup_witness :
    (processRow "epl" wCities "abc" wRow).city_name = some "London"
    ∧ (processRow "epl" wCities "abc" wRow).lat = some ((515 : ℚ) / 10)
    ∧ (processRow "epl" wCities "abc" wRow).lon = some ((-1 : ℚ) / 10) :=
  (c9_city_lookup "epl" wCities (fun _ => "abc") [[wRow]]
    (deriveRows "epl" wCities (fun _ => "abc") 0 [wRow])
    (processRow "epl" wCities "abc" wRow) rfl (List.mem_singleton.mpr rfl)).1
    ("London", (515 : ℚ) / 10, (-1 : ℚ) / 10) rfl

/-! ### Team statistics helper lemmas -/

@[simp] lemma teamStatsFor_team (df : List MatchRow) (t : String) :
    (teamStatsFor df t).team = t := rfl

@[simp] lemma teamStatsFor_homeGamesN (df : List MatchRow) (t : String) :
    (teamStatsFor df t).homeGamesN = homeGames df t := rfl

@[simp] lemma teamStatsFor_awayGamesN (df : List MatchRow) (t : String) :
    (teamStatsFor df t).awayGamesN = awayGames df t := rfl

@[simp] lemma teamStatsFor_homeWinsN (df : List MatchRow) (t : String) :
    (teamStatsFor df t).homeWinsN = homeWins df t := rfl

@[simp] lemma teamStatsFor_awayWinsN (df : List MatchRow) (t : String) :
    (teamStatsFor df t).awayWinsN = awayWins df t := rfl

@[simp] lemma teamStatsFor_homeDrawsN (df : List MatchRow) (t : String) :
    (teamStatsFor df t).homeDrawsN = homeDraws df t := rfl

@[simp] lemma teamStatsFor_awayDrawsN (df : List MatchRow) (t : String) :
    (teamStatsFor df t).awayDrawsN = awayDraws df t := rfl

@[simp] lemma teamStatsFor_homeGoalsN (df : List MatchRow) (t : String) :
    (teamStatsFor df t).homeGoalsN = homeGoals df t := rfl

@[simp] lemma teamStatsFor_awayGoalsN (df : List MatchRow) (t : String) :
    (teamStatsFor df t).awayGoalsN = awayGoals df t := rfl

@[simp] lemma teamStatsFor_totalGames (df : List MatchRow) (t : String) :
    (teamStatsFor df t).totalGames = homeGames df t + awayGames df t := rfl

@[simp] lemma teamStatsFor_totalWins (df : List MatchRow) (t : String) :
    (teamStatsFor df t).totalWins = homeWins df t + awayWins df t := rfl

@[simp] lemma teamStatsFor_totalDraws (df : List MatchRow) (t : String) :
    (teamStatsFor df t).totalDraws = homeDraws df t + awayDraws df t := rfl

@[simp] lemma teamStatsFor_totalGoals (df : List MatchRow) (t : String) :
    (teamStatsFor df t).totalGoals = homeGoals df t + awayGoals df t := rfl

lemma mem_compute_team_statistics {df : List MatchRow} {s : TeamStats}
    (h : s ∈ compute_team_statistics df) :
    ∃ t, t ∈ teamIndex df ∧ s = teamStatsFor df t := by
  obtain ⟨t, ht, hs⟩ := List.mem_map.mp h
  exact ⟨t, ht, hs.symm⟩

lemma homeWins_le_homeGames (df : List MatchRow) (t : String) :
    homeWins df t ≤ homeGames df t :=
  List.length_filter_le _ _

lemma homeDraws_le_homeGames (df : List MatchRow) (t : String) :
    homeDraws df t ≤ homeGames df t :=
  List.length_filter_le _ _

lemma awayWins_le_awayGames (df : List MatchRow) (t : String) :
    awayWins df t ≤ awayGames df t :=
  List.length_filter_le _ _

lemma awayDraws_le_awayGames (df : List MatchRow) (t : String) :
    awayDraws df t ≤ awayGames df t :=
  List.length_filter_le _ _

lemma homeRows_eq_nil_of_homeGames_eq_zero {df : List MatchRow} {t : String}
    (h : homeGames df t = 0) : homeRows df t = [] :=
  List.length_eq_zero.mp h

lemma awayRows_eq_nil_of_awayGames_eq_zero {df : List MatchRow} {t : String}
    (h : awayGames df t = 0) : awayRows df t = [] :=
  List.length_eq_zero.mp h

@[simp] lemma teamStatsFor_winRatio (df : List MatchRow) (t : String) :
    (teamStatsFor df t).winRatio
      = pdiv ((homeWins df t : ℚ) + (awayWins df t : ℚ))
          ((homeGames df t : ℚ) + (awayGames df t : ℚ)) := rfl

@[simp] lemma teamStatsFor_drawRatio (df : List MatchRow) (t : String) :
    (teamStatsFor df t).drawRatio
      = pdiv ((homeDraws df t : ℚ) + (awayDraws df t : ℚ))
          ((homeGames df t : ℚ) + (awayGames df t : ℚ)) := rfl

@[simp] lemma teamStatsFor_homeWinRatio (df : List MatchRow) (t : String) :
    (teamStatsFor df t).homeWinRatio
      = pdiv (homeWins df t : ℚ) (homeGames df t : ℚ) := rfl

@[simp] lemma teamStatsFor_awayWinRatio (df : List MatchRow) (t : String) :
    (teamStatsFor df t).awayWinRatio
      = pdiv (awayWins df t : ℚ) (awayGames df t : ℚ) := rfl

@[simp] lemma teamStatsFor_homeGoalRatio (df : List MatchRow) (t : String) :
    (teamStatsFor df t).homeGoalRatio
      = pdiv (homeGoals df t : ℚ) (homeGames df t : ℚ) := rfl

@[simp] lemma teamStatsFor_awayGoalRatio (df : List MatchRow) (t : String) :
    (teamStatsFor df t).awayGoalRatio
      = pdiv (awayGoals df t : ℚ) (awayGames df t : ℚ) := rfl

@[simp] lemma teamStatsFor_totalGoalRatio (df : List MatchRow) (t : String) :
    (teamStatsFor df t).totalGoalRatio
      = pdiv ((homeGoals df t : ℚ) + (awayGoals df t : ℚ))
          ((homeGames df t : ℚ) + (awayGames df t : ℚ)) := rfl

lemma homeRows_eq_nil_of_not_mem {df : List MatchRow} {t : String}
    (h : t ∉ df.map (fun r => r.homeTeam)) : homeRows df t = [] := by
  rw [homeRows, List.filter_eq_nil_iff]
  intro r hr
  simp only [decide_eq_true_eq]
  intro heq
  exact h (List.mem_map.mpr ⟨r, hr, heq⟩)

lemma awayRows_eq_nil_of_not_mem {df : List MatchRow} {t : String}
    (h : t ∉ df.map (fun r => r.awayTeam)) : awayRows df t = [] := by
  rw [awayRows, List.filter_eq_nil_iff]
  intro r hr
  simp only [decide_eq_true_eq]
  intro heq
  exact h (List.mem_map.mpr ⟨r, hr, heq⟩)

/-! ### C7: one row per team, zero-filled sides, totals -/

/-- C7: the team-statistics table has exactly one row per distinct team
name appearing as a home or away team; a team appearing on one side only
has the other side's counts zero-filled; and the four total columns are
the sums of the corresponding home and away columns. -/
theorem c7_totals_and_index (df : List MatchRow) :
    ((compute_team_statistics df).map (fun s => s.team)).Nodup
    ∧ (∀ t, t ∈ (compute_team_statistics df).map (fun s => s.team) ↔
        (t ∈ df.map (fun r => r.homeTeam) ∨ t ∈ df.map (fun r => r.awayTeam)))
    ∧ (∀ s ∈ compute_team_statistics df,
        s.totalGames = s.homeGamesN + s.awayGamesN
        ∧ s.totalWins = s.homeWinsN + s.awayWinsN
        ∧ s.totalDraws = s.homeDrawsN + s.awayDrawsN
        ∧ s.totalGoals = s.homeGoalsN + s.awayGoalsN
        ∧ (s.team ∉ df.map (fun r => r.homeTeam) →
            s.homeGamesN = 0 ∧ s.homeWinsN = 0 ∧ s.homeDrawsN = 0 ∧ s.homeGoalsN = 0)
        ∧ (s.team ∉ df.map (fun r => r.awayTeam) →
            s.awayGamesN = 0 ∧ s.awayWinsN = 0 ∧ s.awayDrawsN = 0 ∧ s.awayGoalsN = 0)) := by
  refine ⟨?_, ?_, ?_⟩
  · have h : ((compute_team_statistics df).map (fun s => s.team)) = teamIndex df := by
      rw [compute_team_statistics, List.map_map]
      have hc : ((fun s => s.team) ∘ teamStatsFor df) = id := funext fun t => rfl
      rw [hc, List.map_id]
    rw [h]
    exact List.nodup_dedup _
  · intro t
    rw [compute_team_statistics, List.map_map]
    have : ((fun s => s.team) ∘ teamStatsFor df) = id := funext fun t => rfl
    rw [this, List.map_id, teamIndex, List.mem_dedup, List.mem_append]
  · intro s hs
    obtain ⟨t, _, rfl⟩ := mem_compute_team_statistics hs
    refine ⟨rfl, rfl, rfl, rfl, ?_, ?_⟩
    · intro hnot
      have hnil : homeRows df t = [] := homeRows_eq_nil_of_not_mem hnot
      simp [homeGames, homeWins, homeDraws, homeGoals, hnil]
    · intro hnot
      have hnil : awayRows df t = [] := awayRows_eq_nil_of_not_mem hnot
      simp [awayGames, awayWins, awayDraws, awayGoals, hnil]

/-- Witness for C7 on a one-row table: the Chelsea row (away only) has
zero-filled home counts and additive totals. -/
theorem c7_totals_and_index_witness :
    (teamStatsFor [wRow] "Chelsea").totalGames
      = (teamStatsFor [wRow] "Chelsea").homeGamesN + (teamStatsFor [wRow] "Chelsea").awayGamesN
    ∧ (teamStatsFor [wRow] "Chelsea").homeGamesN = 0 :=
  have h := (c7_totals_and_index [wRow]).2.2 (teamStatsFor [wRow] "Chelsea")
    (List.mem_map_of_mem (teamStatsFor [wRow]) (by decide))
  ⟨h.1, (h.2.2.2.2.1 (by decide)).1⟩

/-! ### C4: zero home/away games produce NaN ratios, not a fault -/

/-- C4: for every input table, a team with zero home (or away) games
does not fault the computation: `compute_team_statistics` is total and
that side's ratios come out as the missing marker NaN (pandas `0 / 0`),
not an error and not infinity. -/
theorem c4_zero_games_nan (df : List MatchRow) (s : TeamStats)
    (h : s ∈ compute_team_statistics df) :
    (s.homeGamesN = 0 → s.homeWinRatio = PFloat.nan ∧ s.homeGoalRatio = PFloat.nan)
    ∧ (s.awayGamesN = 0 → s.awayWinRatio = PFloat.nan ∧ s.awayGoalRatio = PFloat.nan) := by
  obtain ⟨t, _, rfl⟩ := mem_compute_team_statistics h
  constructor
  · intro h0
    rw [teamStatsFor_homeGamesN] at h0
    have hnil : homeRows df t = [] := homeRows_eq_nil_of_homeGames_eq_zero h0
    have hw : homeWins df t = 0 := by simp [homeWins, hnil]
    have hg : homeGoals df t = 0 := by simp [homeGoals, hnil]
    simp [h0, hw, hg, pdiv]
  · intro h0
    rw [teamStatsFor_awayGamesN] at h0
    have hnil : awayRows df t = [] := awayRows_eq_nil_of_awayGames_eq_zero h0
    have hw : awayWins df t = 0 := by simp [awayWins, hnil]
    have hg : awayGoals df t = 0 := by simp [awayGoals, hnil]
    simp [h0, hw, hg, pdiv]

/-- Witness for C4: Chelsea has zero home games in the one-row table,
and its home ratios evaluate to NaN. -/
theorem c4_zero_games_nan_witness :
    (teamStatsFor [wRow] "Chelsea").homeWinRatio = PFloat.nan
    ∧ (teamStatsFor [wRow] "Chelsea").homeGoalRatio = PFloat.nan :=
  (c4_zero_games_nan [wRow] (teamStatsFor [wRow] "Chelsea")
    (List.mem_map_of_mem (teamStatsFor [wRow]) (by decide))).1 (by decide)

/-! ### C3: ratio bounds -/

/-- Counterexample to C3: in the one-row table where Arsenal scores two
home goals, `HomeGoalRatio` has nonzero denominator yet equals `2`,
outside `[0, 1]`. -/
theorem c3_counterexample :
    teamStatsFor [wRow] "Arsenal" ∈ compute_team_statistics [wRow]
    ∧ (teamStatsFor [wRow] "Arsenal").homeGamesN ≠ 0
    ∧ (teamStatsFor [wRow] "Arsenal").homeGoalRatio = PFloat.val 2
    ∧ ¬ ((2 : ℚ) ≤ 1) := by
  refine ⟨List.mem_map_of_mem (teamStatsFor [wRow]) (by decide), by decide, ?_, by norm_num⟩
  rw [teamStatsFor_homeGoalRatio]
  have hg : homeGames [wRow] "Arsenal" = 1 := by decide
  have hgl : homeGoals [wRow] "Arsenal" = 2 := by decide
  rw [hg, hgl]
  norm_num [pdiv]

lemma pdiv_le_one_of_le {a b : Nat} (hb : b ≠ 0) (hab : a ≤ b) :
    ∃ q : ℚ, pdiv (a : ℚ) (b : ℚ) = .val q ∧ 0 ≤ q ∧ q ≤ 1 := by
  have hb' : (b : ℚ) ≠ 0 := Nat.cast_ne_zero.mpr hb
  have hbpos : (0 : ℚ) < (b : ℚ) := by positivity
  refine ⟨(a : ℚ) / (b : ℚ), by simp [pdiv, hb'], by positivity, ?_⟩
  rw [div_le_one hbpos]
  exact_mod_cast hab

lemma pdiv_nonneg_of_ne {a b : Nat} (hb : b ≠ 0) :
    ∃ q : ℚ, pdiv (a : ℚ) (b : ℚ) = .val q ∧ 0 ≤ q := by
  have hb' : (b : ℚ) ≠ 0 := Nat.cast_ne_zero.mpr hb
  exact ⟨(a : ℚ) / (b : ℚ), by simp [pdiv, hb'], by positivity⟩

/-- C3 amended: with a nonzero denominator, the win and draw ratios
(`WinRatio`, `DrawRatio`, `HomeWinRatio`, `AwayWinRatio`) lie in
`[0, 1]`, while the goal ratios (`HomeGoalRatio`, `AwayGoalRatio`,
`TotalGoalRatio`) are only guaranteed nonnegative (goals per game can
exceed 1). -/
theorem c3_amended_ratio_bounds (df : List MatchRow) (s : TeamStats)
    (h : s ∈ compute_team_statistics df) :
    (s.totalGames ≠ 0 →
      (∃ q : ℚ, s.winRatio = .val q ∧ 0 ≤ q ∧ q ≤ 1)
      ∧ (∃ q : ℚ, s.drawRatio = .val q ∧ 0 ≤ q ∧ q ≤ 1)
      ∧ (∃ q : ℚ, s.totalGoalRatio = .val q ∧ 0 ≤ q))
    ∧ (s.homeGamesN ≠ 0 →
      (∃ q : ℚ, s.homeWinRatio = .val q ∧ 0 ≤ q ∧ q ≤ 1)
      ∧ (∃ q : ℚ, s.homeGoalRatio = .val q ∧ 0 ≤ q))
    ∧ (s.awayGamesN ≠ 0 →
      (∃ q : ℚ, s.awayWinRatio = .val q ∧ 0 ≤ q ∧ q ≤ 1)
      ∧ (∃ q : ℚ, s.awayGoalRatio = .val q ∧ 0 ≤ q)) := by
  obtain ⟨t, _, rfl⟩ := mem_compute_team_statistics h
  refine ⟨?_, ?_, ?_⟩
  · intro h0
    rw [teamStatsFor_totalGames] at h0
    have hcast : ((homeGames df t + awayGames df t : Nat) : ℚ)
        = (homeGames df t : ℚ) + (awayGames df t : ℚ) := by push_cast; ring
    refine ⟨?_, ?_, ?_⟩
    · rw [teamStatsFor_winRatio, ← hcast, ← Nat.cast_add]
      exact pdiv_le_one_of_le h0
        (Nat.add_le_add (homeWins_le_homeGames df t) (awayWins_le_awayGames df t))
    · rw [teamStatsFor_drawRatio, ← hcast, ← Nat.cast_add]
      exact pdiv_le_one_of_le h0
        (Nat.add_le_add (homeDraws_le_homeGames df t) (awayDraws_le_awayGames df t))
    · rw [teamStatsFor_totalGoalRatio, ← hcast, ← Nat.cast_add]
      exact pdiv_nonneg_of_ne h0
  · intro h0
    rw [teamStatsFor_homeGamesN] at h0
    exact ⟨teamStatsFor_homeWinRatio df t ▸
        pdiv_le_one_of_le h0 (homeWins_le_homeGames df t),
      teamStatsFor_homeGoalRatio df t ▸ pdiv_nonneg_of_ne h0⟩
  · intro h0
    rw [teamStatsFor_awayGamesN] at h0
    exact ⟨teamStatsFor_awayWinRatio df t ▸
        pdiv_le_one_of_le h0 (awayWins_le_awayGames df t),
      teamStatsFor_awayGoalRatio df t ▸ pdiv_nonneg_of_ne h0⟩

/-- Witness for the amended C3: Arsenal's win ratio on the one-row table
is a value in `[0, 1]`. -/
theorem c3_amended_ratio_bounds_witness :
    ∃ q : ℚ, (teamStatsFor [wRow] "Arsenal").winRatio = .val q ∧ 0 ≤ q ∧ q ≤ 1 :=
  ((c3_amended_ratio_bounds [wRow] (teamStatsFor [wRow] "Arsenal")
    (List.mem_map_of_mem (teamStatsFor [wRow]) (by decide))).1 (by decide)).1

/-! ### Fetch-pipeline helper lemmas -/

/-- The season tables a run of the fetch loop appends: one table per
year whose fetch returned status 200, in year order. -/
def successTables (oracle : Int → FetchOutcome) (years : List Int) :
    List (List MatchRow) :=
  years.filterMap (fun y => match oracle y with
    | .ok df => some df
    | .notFound => none
    | .requestError => none)

lemma construct_url_ok {league : String} (h : league = "serie_a" ∨ league = "epl")
    (y : Int) : ∃ u, construct_url league y = .ok u := by
  rcases h with h | h <;> subst h <;> simp [construct_url]

lemma fetchYears_valid {league : String} (h : league = "serie_a" ∨ league = "epl")
    (oracle : Int → FetchOutcome) (years : List Int)
    (acc : List (List MatchRow)) :
    fetchYears league oracle years acc = .ok (acc ++ successTables oracle years) := by
  induction years generalizing acc with
  | nil => simp [fetchYears, successTables]
  | cons y ys ih =>
    obtain ⟨u, hu⟩ := construct_url_ok h y
    cases hor : oracle y with
    | ok df =>
      simp only [fetchYears, hu, hor, ih, successTables, List.filterMap_cons]
      simp [successTables, List.append_assoc]
    | notFound => simp [fetchYears, hu, hor, ih, successTables, List.filterMap_cons]
    | requestError => simp [fetchYears, hu, hor, ih, successTables, List.filterMap_cons]

lemma collect_data_eq (league : String) (cities : CityMap) (gen : Nat → String)
    (oracle : Int → FetchOutcome) (yearStart yearEnd : Int)
    (all_data acc : List (List MatchRow))
    (hf : fetchYears league oracle (rangeList yearStart yearEnd) all_data = .ok acc) :
    collect_data league cities gen oracle yearStart yearEnd all_data
      = if acc = [] then .error "No objects to concatenate"
        else .ok (acc, deriveRows league cities gen 0 acc.flatten) := by
  cases acc with
  | nil => rw [collect_data, hf]; rfl
  | cons a as => rw [collect_data, hf]; rfl

/-- Erase the non-deterministic `game_id` column of a merged row. -/
def eraseGid (p : ProcRow) : ProcRow := { p with game_id := "" }

lemma eraseGid_processRow (league : String) (cities : CityMap) (gid : String)
    (r : MatchRow) :
    eraseGid (processRow league cities gid r) = processRow league cities "" r := rfl

lemma deriveRows_map_eraseGid (league : String) (cities : CityMap)
    (gen : Nat → String) (i : Nat) (rows : List MatchRow) :
    (deriveRows league cities gen i rows).map eraseGid
      = rows.map (processRow league cities "") := by
  induction rows generalizing i with
  | nil => simp [deriveRows]
  | cons r rs ih => simp [deriveRows, eraseGid_processRow, ih]

/-! ### C10: the accumulation buffer only grows -/

/-- C10: a `collect_data` call takes the accumulation `all_data` to
`all_data ++ successTables` — every successfully fetched season table is
appended, nothing is ever removed (the prior state is a prefix) — and
the merge step concatenates the whole accumulation, i.e. the union of
all seasons fetched by every call on the instance. -/
theorem c10_accumulation_monotone (league : String) (cities : CityMap)
    (gen : Nat → String) (oracle : Int → FetchOutcome) (yearStart yearEnd : Int)
    (all_data : List (List MatchRow))
    (h : league = "serie_a" ∨ league = "epl") :
    fetchYears league oracle (rangeList yearStart yearEnd) all_data
      = .ok (all_data ++ successTables oracle (rangeList yearStart yearEnd))
    ∧ (∀ acc t,
        collect_data league cities gen oracle yearStart yearEnd all_data = .ok (acc, t) →
          acc = all_data ++ successTables oracle (rangeList yearStart yearEnd)
          ∧ all_data <+: acc
          ∧ t = deriveRows league cities gen 0 acc.flatten) := by
  have hf := fetchYears_valid h oracle (rangeList yearStart yearEnd) all_data
  refine ⟨hf, ?_⟩
  intro acc t hcall
  rw [collect_data_eq league cities gen oracle yearStart yearEnd all_data _ hf] at hcall
  by_cases hemp : all_data ++ successTables oracle (rangeList yearStart yearEnd) = []
  · rw [if_pos hemp] at hcall
    exact Except.noConfusion hcall
  · rw [if_neg hemp] at hcall
    have h' := Except.ok.inj hcall
    have hacc : acc = all_data ++ successTables oracle (rangeList yearStart yearEnd) :=
      (congrArg Prod.fst h').symm
    have ht : t = deriveRows league cities gen 0
        (all_data ++ successTables oracle (rangeList yearStart yearEnd)).flatten :=
      (congrArg Prod.snd h').symm
    subst hacc
    subst ht
    exact ⟨rfl, ⟨_, rfl⟩, rfl⟩

/-- Witness for C10: one successful season appended to a prior
accumulation of one table. -/
theorem c10_accumulation_monotone_witness :
    fetchYears "epl" (fun _ => .ok [wRow]) (rangeList 2020 2020) [[wRow]]
      = .ok ([[wRow]] ++ successTables (fun _ => .ok [wRow]) (rangeList 2020 2020)) :=
  (c10_accumulation_monotone "epl" [] gen0 (fun _ => .ok [wRow]) 2020 2020 [[wRow]]
    (Or.inr rfl)).1

/-! ### C8: invalid league fails before any network request -/

/-- C8: for any league other than `serie_a` and `epl` and any
non-reversed year range, `collect_data` raises the invalid-league
`ValueError` on the first iteration. The statement holds for every
oracle, so the outcome is decided before any network request and no
partial merged table is returned. -/
theorem c8_invalid_league (league : String) (cities : CityMap) (gen : Nat → String)
    (oracle : Int → FetchOutcome) (yearStart yearEnd : Int)
    (all_data : List (List MatchRow))
    (h1 : league ≠ "serie_a") (h2 : league ≠ "epl") (h3 : yearStart ≤ yearEnd) :
    collect_data league cities gen oracle yearStart yearEnd all_data
      = .error "Invalid league. Must be 'serie_a' or 'epl'." := by
  have hrange : ∃ rest, rangeList yearStart yearEnd = yearStart :: rest := by
    have hn : (yearEnd + 1 - yearStart).toNat = (yearEnd - yearStart).toNat + 1 := by
      omega
    refine ⟨(List.map Nat.succ (List.range (yearEnd - yearStart).toNat)).map
      (fun i : Nat => yearStart + Int.ofNat i), ?_⟩
    rw [rangeList, hn, List.range_succ_eq_map, List.map_cons]
    simp
  obtain ⟨rest, hr⟩ := hrange
  have hurl : construct_url league yearStart
      = .error "Invalid league. Must be 'serie_a' or 'epl'." := by
    simp [construct_url, h1, h2]
  rw [collect_data, hr, fetchYears, hurl]

/-- Witness for C8 at the unsupported league `laliga`. -/
theorem c8_invalid_league_witness :
    collect_data "laliga" [] gen0 (fun _ => FetchOutcome.requestError) 2020 2021 []
      = .error "Invalid league. Must be 'serie_a' or 'epl'." :=
  c8_invalid_league "laliga" [] gen0 (fun _ => FetchOutcome.requestError) 2020 2021 []
    (by decide) (by decide) (by decide)

/-! ### C1: empty accumulation at merge time -/

/-- Counterexample to C1 as stated: on a collector whose accumulation
already holds a season table from an earlier call, a `collect_data`
call in which every year's fetch fails returns the previously
accumulated table instead of raising. -/
theorem c1_counterexample :
    collect_data "epl" [] gen0 (fun _ => FetchOutcome.requestError) 2020 2020 [[wRow]]
      = .ok ([[wRow]], deriveRows "epl" [] gen0 0 [wRow]) := rfl

/-- C1 amended: `pd.concat` of an empty accumulation raises, and every
`collect_data` call starting from an empty accumulation in which every
year's fetch fails (which subsumes a reversed, hence empty, year range)
raises the empty-concatenation error instead of returning a table. -/
theorem c1_amended_empty_merge (league : String) (cities : CityMap)
    (gen : Nat → String) (oracle : Int → FetchOutcome) (yearStart yearEnd : Int)
    (hl : league = "serie_a" ∨ league = "epl")
    (hfail : ∀ y ∈ rangeList yearStart yearEnd,
      oracle y = .notFound ∨ oracle y = .requestError) :
    process_data league cities gen [] = .error "No objects to concatenate"
    ∧ collect_data league cities gen oracle yearStart yearEnd []
        = .error "No objects to concatenate" := by
  have hsucc : successTables oracle (rangeList yearStart yearEnd) = [] := by
    rw [successTables, List.filterMap_eq_nil_iff]
    intro y hy
    rcases hfail y hy with h | h <;> simp [h]
  have hf := fetchYears_valid hl oracle (rangeList yearStart yearEnd) []
  rw [hsucc] at hf
  refine ⟨rfl, ?_⟩
  rw [collect_data_eq league cities gen oracle yearStart yearEnd [] []
    (by simpa using hf)]
  simp

/-- Witness for the amended C1: an `epl` collector with empty
accumulation whose single season request raises a transport error. -/
theorem c1_amended_empty_merge_witness :
    collect_data "epl" [] gen0 (fun _ => FetchOutcome.requestError) 2020 2020 []
      = .error "No objects to concatenate" :=
  (c1_amended_empty_merge "epl" [] gen0 (fun _ => FetchOutcome.requestError)
    2020 2020 (Or.inr rfl) (fun _ _ => Or.inr rfl)).2

/-! ### C2: state persistence across calls -/

/-- A remote source that is unchanged across calls: every request for a
season returns status 200 with the same one-row table. -/
def oracleOne : Int → FetchOutcome := fun _ => .ok [wRow]

/-- Counterexample to C2 as stated: two `collect_data` calls with
identical arguments against the unchanged source `oracleOne` — the
second starting from the accumulation the first call left behind —
return tables of different lengths (1 row, then 2 rows), so they are
not row-for-row identical even ignoring `game_id`. -/
theorem c2_counterexample :
    collect_data "epl" [] gen0 oracleOne 2020 2020 []
      = .ok ([[wRow]], deriveRows "epl" [] gen0 0 [wRow])
    ∧ collect_data "epl" [] gen0 oracleOne 2020 2020 [[wRow]]
      = .ok ([[wRow], [wRow]], deriveRows "epl" [] gen0 0 [wRow, wRow])
    ∧ (deriveRows "epl" [] gen0 0 [wRow]).length
        ≠ (deriveRows "epl" [] gen0 0 [wRow, wRow]).length :=
  ⟨rfl, rfl, by decide⟩

/-- C2 amended: in-process state does persist across calls — the
accumulation buffer carries over, so a second `collect_data` call with
identical arguments against an unchanged source returns the doubled
accumulation: its table is two copies of the first call's table,
row-for-row identical to them except for the `game_id` column. -/
theorem c2_amended_state_persists (league : String) (cities : CityMap)
    (gen gen2 : Nat → String) (oracle : Int → FetchOutcome)
    (yearStart yearEnd : Int) (st1 : List (List MatchRow)) (t1 : List ProcRow)
    (hl : league = "serie_a" ∨ league = "epl")
    (h1 : collect_data league cities gen oracle yearStart yearEnd [] = .ok (st1, t1)) :
    collect_data league cities gen2 oracle yearStart yearEnd st1
      = .ok (st1 ++ st1, deriveRows league cities gen2 0 (st1 ++ st1).flatten)
    ∧ (deriveRows league cities gen2 0 (st1 ++ st1).flatten).map eraseGid
        = t1.map eraseGid ++ t1.map eraseGid := by
  have hf1 := fetchYears_valid hl oracle (rangeList yearStart yearEnd) []
  rw [collect_data_eq league cities gen oracle yearStart yearEnd [] _
    (by simpa using hf1)] at h1
  by_cases hemp : successTables oracle (rangeList yearStart yearEnd) = []
  · rw [if_pos hemp] at h1
    exact Except.noConfusion h1
  · rw [if_neg hemp] at h1
    have h' := Except.ok.inj h1
    have hst : st1 = successTables oracle (rangeList yearStart yearEnd) :=
      (congrArg Prod.fst h').symm
    have ht : t1 = deriveRows league cities gen 0
        (successTables oracle (rangeList yearStart yearEnd)).flatten :=
      (congrArg Prod.snd h').symm
    subst hst
    subst ht
    have hf2 := fetchYears_valid hl oracle (rangeList yearStart yearEnd)
      (successTables oracle (rangeList yearStart yearEnd))
    constructor
    · rw [collect_data_eq league cities gen2 oracle yearStart yearEnd _ _ hf2,
        if_neg (fun hc => hemp (List.append_eq_nil.mp hc).2)]
    · simp [List.flatten_append, deriveRows_map_eraseGid, List.map_append]

/-- Witness for the amended C2 at the concrete one-season source. -/
theorem c2_amended_state_persists_witness :
    collect_data "epl" [] gen0 oracleOne 2020 2020 [[wRow]]
      = .ok ([[wRow]] ++ [[wRow]],
          deriveRows "epl" [] gen0 0 (([[wRow]] ++ [[wRow]] : List (List MatchRow))).flatten)
    ∧ (deriveRows "epl" [] gen0 0
          (([[wRow]] ++ [[wRow]] : List (List MatchRow))).flatten).map eraseGid
        = (deriveRows "epl" [] gen0 0 [wRow]).map eraseGid
          ++ (deriveRows "epl" [] gen0 0 [wRow]).map eraseGid :=
  c2_amended_state_persists "epl" [] gen0 gen0 oracleOne 2020 2020 [[wRow]]
    (deriveRows "epl" [] gen0 0 [wRow]) (Or.inr rfl) rfl

end FootballPredictions
